import Mathlib

/-!
Shallow embedding of the image_chrome clipboard utility (Python sources:
clipboard_monitor.py, shortcut_dialog.py, config.py) together with the
raw bitmap decoder described in the design document.  Pure functions of
the Python code are translated into Lean functions; the mutable monitor
and dialog objects become explicit state records with one Lean function
per Python method.  Times are rationals (seconds, as produced by
time.time()); bytes are naturals below 256.
-/

namespace ImageChrome

/-- A keyboard event key as delivered by the pynput listener: either one of
the sided modifier keys that clipboard_monitor.py compares against, or any
other key carrying an optional character, an optional virtual key code and
an optional name (the three attributes probed with hasattr). -/
inductive Key where
  | ctrl_l | ctrl_r
  | alt_l | alt_r | alt_gr
  | shift_l | shift_r
  | other (char : Option String) (vk : Option Nat) (name : Option String)
deriving DecidableEq

/-- The VK_CODES dictionary of clipboard_monitor.py. -/
def VK_CODES : String → Option Nat
  | "a" => some 0x41 | "b" => some 0x42 | "c" => some 0x43 | "d" => some 0x44
  | "e" => some 0x45 | "f" => some 0x46 | "g" => some 0x47 | "h" => some 0x48
  | "i" => some 0x49 | "j" => some 0x4A | "k" => some 0x4B | "l" => some 0x4C
  | "m" => some 0x4D | "n" => some 0x4E | "o" => some 0x4F | "p" => some 0x50
  | "q" => some 0x51 | "r" => some 0x52 | "s" => some 0x53 | "t" => some 0x54
  | "u" => some 0x55 | "v" => some 0x56 | "w" => some 0x57 | "x" => some 0x58
  | "y" => some 0x59 | "z" => some 0x5A
  | "0" => some 0x30 | "1" => some 0x31 | "2" => some 0x32 | "3" => some 0x33
  | "4" => some 0x34 | "5" => some 0x35 | "6" => some 0x36 | "7" => some 0x37
  | "8" => some 0x38 | "9" => some 0x39
  | "f1" => some 0x70 | "f2" => some 0x71 | "f3" => some 0x72 | "f4" => some 0x73
  | "f5" => some 0x74 | "f6" => some 0x75 | "f7" => some 0x76 | "f8" => some 0x77
  | "f9" => some 0x78 | "f10" => some 0x79 | "f11" => some 0x7A | "f12" => some 0x7B
  | _ => none

/-- Model of the Python str.lower() method on the key strings involved
(ASCII): lower-case every character. -/
def lower (s : String) : String := String.mk (s.data.map Char.toLower)

/-- A shortcut configuration record as returned by config.get_shortcut:
a list of modifier names and a trigger key string. -/
structure Shortcut where
  modifiers : List String
  key : String
deriving DecidableEq

/-- The mutable state of clipboard_monitor.ClipboardMonitor.  The pynput
listener object is modelled only by its presence (has_listener); the
on_image_callback is external and not part of the state. -/
structure Monitor where
  running : Bool
  has_listener : Bool
  last_paste_time : Rat
  debounce_interval : Rat
  ctrl_pressed : Bool
  alt_pressed : Bool
  shift_pressed : Bool
  required_modifiers : Finset String
  trigger_key : String
  trigger_vk : Option Nat

/-- ClipboardMonitor.reload_shortcut: load the chord fields from a
shortcut configuration (the key is lower-cased, its VK code looked up). -/
def reload_shortcut (m : Monitor) (s : Shortcut) : Monitor :=
  { m with required_modifiers := s.modifiers.toFinset,
           trigger_key := lower s.key,
           trigger_vk := VK_CODES (lower s.key) }

/-- ClipboardMonitor.__init__ followed by the reload_shortcut call it makes:
no listener, not running, last paste time 0, debounce 0.5 s, no modifier held. -/
def initMonitor (s : Shortcut) : Monitor :=
  reload_shortcut
    { running := false, has_listener := false, last_paste_time := 0,
      debounce_interval := 1/2, ctrl_pressed := false, alt_pressed := false,
      shift_pressed := false, required_modifiers := ∅, trigger_key := "",
      trigger_vk := none } s

/-- The key equality tests `key == keyboard.Key.ctrl_l or key == keyboard.Key.ctrl_r`. -/
def is_ctrl_key : Key → Bool
  | Key.ctrl_l => true
  | Key.ctrl_r => true
  | _ => false

/-- The key equality tests against alt_l, alt_r and alt_gr. -/
def is_alt_key : Key → Bool
  | Key.alt_l => true
  | Key.alt_r => true
  | Key.alt_gr => true
  | _ => false

/-- The key equality tests against shift_l and shift_r. -/
def is_shift_key : Key → Bool
  | Key.shift_l => true
  | Key.shift_r => true
  | _ => false

/-- Which modifier type a key is tracked as, if any. -/
def modifierType (k : Key) : Option String :=
  if is_ctrl_key k then some "ctrl"
  else if is_alt_key k then some "alt"
  else if is_shift_key k then some "shift"
  else none

/-- The set built by ClipboardMonitor._check_modifiers_match from the three
pressed flags. -/
def current_modifiers (m : Monitor) : Finset String :=
  (if m.ctrl_pressed then {"ctrl"} else ∅) ∪
  (if m.alt_pressed then {"alt"} else ∅) ∪
  (if m.shift_pressed then {"shift"} else ∅)

/-- ClipboardMonitor._check_modifiers_match: exact set equality between the
currently held modifiers and the required ones. -/
def check_modifiers_match (m : Monitor) : Bool :=
  current_modifiers m == m.required_modifiers

/-- The character branch of _is_trigger_key: the key has a truthy char
attribute whose lower-case form equals the trigger key. -/
def char_matches (m : Monitor) (char : Option String) : Bool :=
  match char with
  | some c => (c != "") && (lower c == m.trigger_key)
  | none => false

/-- The virtual-key-code branch of _is_trigger_key: the key has a vk
attribute and the monitor has a (truthy) trigger vk equal to it. -/
def vk_matches (m : Monitor) (vk : Option Nat) : Bool :=
  match vk, m.trigger_vk with
  | some v, some tv => v == tv
  | _, _ => false

/-- The name branch of _is_trigger_key: the key has a truthy name whose
lower-case form equals the trigger key. -/
def name_matches (m : Monitor) (name : Option String) : Bool :=
  match name with
  | some n => (n != "") && (lower n == m.trigger_key)
  | none => false

/-- The name attribute carried by the sided modifier keys (pynput Key
members expose a name and no char). -/
def modifierKeyName : Key → Option String
  | Key.ctrl_l => some "ctrl_l"
  | Key.ctrl_r => some "ctrl_r"
  | Key.alt_l => some "alt_l"
  | Key.alt_r => some "alt_r"
  | Key.alt_gr => some "alt_gr"
  | Key.shift_l => some "shift_l"
  | Key.shift_r => some "shift_r"
  | Key.other _ _ _ => none

/-- ClipboardMonitor._is_trigger_key: character match, or virtual key code
match, or name match, in that order. -/
def is_trigger_key (m : Monitor) (k : Key) : Bool :=
  match k with
  | Key.other c v n => char_matches m c || vk_matches m v || name_matches m n
  | k => name_matches m (modifierKeyName k)

/-- ClipboardMonitor._handle_paste up to the debounce decision: returns the
new state and whether the trigger fired (i.e. a capture thread was started).
A debounced call returns early, leaving the timestamp unchanged; a fired
call stores the current time. -/
def handle_paste (m : Monitor) (now : Rat) : Monitor × Bool :=
  if now - m.last_paste_time < m.debounce_interval then (m, false)
  else ({ m with last_paste_time := now }, true)

/-- ClipboardMonitor._on_press: modifier keys only update the flags and
return; any other key fires (subject to debounce) exactly when the modifier
sets match and the key is the trigger key. -/
def on_press (m : Monitor) (k : Key) (now : Rat) : Monitor × Bool :=
  if is_ctrl_key k then ({ m with ctrl_pressed := true }, false)
  else if is_alt_key k then ({ m with alt_pressed := true }, false)
  else if is_shift_key k then ({ m with shift_pressed := true }, false)
  else if check_modifiers_match m && is_trigger_key m k then handle_paste m now
  else (m, false)

/-- ClipboardMonitor._on_release: clear the corresponding modifier flag. -/
def on_release (m : Monitor) (k : Key) : Monitor :=
  if is_ctrl_key k then { m with ctrl_pressed := false }
  else if is_alt_key k then { m with alt_pressed := false }
  else if is_shift_key k then { m with shift_pressed := false }
  else m

/-- ClipboardMonitor.start: idempotent; set the running flag and install a
listener.  The modifier flags are not touched. -/
def start (m : Monitor) : Monitor :=
  if m.running then m
  else { m with running := true, has_listener := true }

/-- ClipboardMonitor.stop: clear the running flag and drop the listener.
The modifier flags are not touched. -/
def stop (m : Monitor) : Monitor :=
  { m with running := false, has_listener := false }

/-- One raw keyboard event: the key, whether it is a press (otherwise a
release), and its arrival time in seconds. -/
structure KeyEvent where
  key : Key
  is_press : Bool
  time : Rat

/-- Deliver one event to the monitor the way the pynput listener does,
returning the new state and whether a trigger fired. -/
def step (m : Monitor) (e : KeyEvent) : Monitor × Bool :=
  if e.is_press then on_press m e.key e.time else (on_release m e.key, false)

/-- Deliver a list of events in arrival order. -/
def processEvents (m : Monitor) (evs : List KeyEvent) : Monitor :=
  evs.foldl (fun m e => (step m e).1) m

/-- Specification-side tracking of the held-modifier set: fold the
press/release events over a set of modifier names. -/
def heldUpd (s : Finset String) (e : KeyEvent) : Finset String :=
  match modifierType e.key with
  | some mt => if e.is_press then insert mt s else s.erase mt
  | none => s

/-- The set of modifiers held after a sequence of events, as the claim
describes it: tracked from prior press/release events, starting empty. -/
def heldModifierSet (evs : List KeyEvent) : Finset String :=
  evs.foldl heldUpd ∅

/-- Specification-side key matching, in the claim's words: the pressed key
matches the chord's trigger key by case-insensitive character, or by
virtual key code, or by key name. -/
def claimKeyMatches (cfg : Shortcut) (k : Key) : Bool :=
  match k with
  | Key.other c v n =>
      (match c with
       | some s => (s != "") && (lower s == lower cfg.key)
       | none => false) ||
      (match v, VK_CODES (lower cfg.key) with
       | some a, some b => a == b
       | _, _ => false) ||
      (match n with
       | some s => (s != "") && (lower s == lower cfg.key)
       | none => false)
  | _ => false

/-- A PIL image as far as the monitor observes it: its mode string plus
size and abstract pixel payload.  Only the mode drives control flow. -/
structure PILImage where
  mode : String
  width : Nat
  height : Nat
  data : List Nat
deriving DecidableEq

/-- Model of PIL Image.convert: the result carries the requested mode
(payload conversion is opaque to the monitor's logic). -/
def convert (img : PILImage) (newMode : String) : PILImage :=
  { img with mode := newMode }

/-- The possible outcomes of PIL ImageGrab.grabclipboard as observed by
_get_clipboard_image: None, an Image, a list of file paths, some other
object, or a raised exception (e.g. the clipboard locked by another
process). -/
inductive GrabResult where
  | noData
  | image (img : PILImage)
  | fileList (paths : List String)
  | otherType
  | accessError (msg : String)
deriving DecidableEq

/-- ClipboardMonitor._get_clipboard_image: the whole body is wrapped in
try/except Exception, so every grab failure becomes None; a None grab, a
file list and an unexpected type also yield None; an image is returned
as-is when RGBA, converted when its mode is neither RGBA nor RGB. -/
def get_clipboard_image (r : GrabResult) : Option PILImage :=
  match r with
  | GrabResult.noData => none
  | GrabResult.image img =>
      if img.mode = "RGBA" then some img
      else if img.mode ≠ "RGB" then some (convert img ("RGB"))
      else some img
  | GrabResult.fileList _ => none
  | GrabResult.otherType => none
  | GrabResult.accessError _ => none

/-- One observable action of the background capture task spawned by
_handle_paste. -/
inductive CaptureAction where
  | sleep (seconds : Rat)
  | extractCall
  | callbackCall (img : PILImage)
deriving DecidableEq

/-- The check_clipboard closure of _handle_paste as an action trace: sleep
0.1 s, call the extraction, and call the callback exactly when the
extraction produced an image. -/
def check_clipboard (grab : GrabResult) : List CaptureAction :=
  [CaptureAction.sleep (1/10), CaptureAction.extractCall] ++
  (match get_clipboard_image grab with
   | some img => [CaptureAction.callbackCall img]
   | none => [])

/-- Number of capture threads _handle_paste starts for a call at the given
time: one on the fired path, zero on the debounced path. -/
def scheduled_tasks (m : Monitor) (now : Rat) : Nat :=
  if (handle_paste m now).2 then 1 else 0

/-- Recognizer for the callback action of a capture trace. -/
def isCallbackCall : CaptureAction → Bool
  | CaptureAction.callbackCall _ => true
  | _ => false

/-- Python truthiness of an optional string (None and the empty string are
falsy). -/
def pyTruthy : Option String → Bool
  | some s => s != ""
  | none => false

/-- The mutable state of shortcut_dialog.ShortcutDialog that the recording
logic touches: the recording flag, the working modifier set, the recorded
key and whether the Save button is enabled. -/
structure Dialog where
  recording : Bool
  modifiers : Finset String
  key : Option String
  save_enabled : Bool

/-- ShortcutDialog.__init__. -/
def initDialog : Dialog :=
  { recording := false, modifiers := ∅, key := none, save_enabled := false }

/-- ShortcutDialog.start_recording: clear the working set and the recorded
key, disable Save, begin listening. -/
def start_recording (d : Dialog) : Dialog :=
  { d with recording := true, modifiers := ∅, key := none,
           save_enabled := false }

/-- ShortcutDialog.stop_recording: stop listening. -/
def stop_recording (d : Dialog) : Dialog :=
  { d with recording := false }

/-- The key identity recorded by the else-branch of _on_key_press: the
char attribute if truthy, else the name attribute if truthy, else a
conversion of the vk code when it falls in the A-Z, 0-9 or F1-F12 ranges;
otherwise the previously recorded key is kept. -/
def recorded_key_of (c n : Option String) (v : Option Nat)
    (old : Option String) : Option String :=
  if pyTruthy c then some (lower (c.getD ""))
  else if pyTruthy n then some (lower (n.getD ""))
  else match v with
    | some vk =>
        if 0x41 ≤ vk ∧ vk ≤ 0x5A then some (lower ((Char.ofNat vk).toString))
        else if 0x30 ≤ vk ∧ vk ≤ 0x39 then some ((Char.ofNat vk).toString)
        else if 0x70 ≤ vk ∧ vk ≤ 0x7B then some ("f" ++ toString (vk - 0x6F))
        else old
    | none => old

/-- ShortcutDialog._on_key_press: ignore events while not recording; add a
pressed modifier to the working set; any other key overwrites the recorded
key with its resolved identity (display update omitted). -/
def dialog_key_press (d : Dialog) (k : Key) : Dialog :=
  if d.recording = false then d
  else if is_ctrl_key k then { d with modifiers := insert "ctrl" d.modifiers }
  else if is_alt_key k then { d with modifiers := insert "alt" d.modifiers }
  else if is_shift_key k then { d with modifiers := insert "shift" d.modifiers }
  else match k with
    | Key.other c v n => { d with key := recorded_key_of c n v d.key }
    | _ => d

/-- ShortcutDialog._on_key_release: ignore events while not recording; if
the working modifier set and the recorded key are both truthy, stop
recording and enable Save, whatever key was released. -/
def dialog_key_release (d : Dialog) (_k : Key) : Dialog :=
  if d.recording = false then d
  else if (d.modifiers ≠ ∅) ∧ (pyTruthy d.key = true) then
    { stop_recording d with save_enabled := true }
  else d

/-- The shortcut entry of the persisted configuration dictionary. -/
structure StoredShortcut where
  modifiers : List String
  key : String
deriving DecidableEq

/-- The configuration dictionary of config.py (the keys load_config
guarantees). -/
structure Config where
  save_folder : String
  auto_start_enabled : Bool
  shortcut : StoredShortcut
deriving DecidableEq

/-- config.set_shortcut: overwrite the shortcut entry and save. -/
def set_shortcut (c : Config) (mods : List String) (k : String) : Config :=
  { c with shortcut := { modifiers := mods, key := k } }

/-- ShortcutDialog.save_shortcut acting on a configuration store: commit
only when both the working modifier set and the recorded key are truthy;
the Bool reports whether a commit (with change-callback and dialog close)
happened.  list(self.modifiers) enumerates the set in an unspecified
order; the model fixes the lexicographic one. -/
def save_shortcut (d : Dialog) (c : Config) : Config × Bool :=
  if (d.modifiers ≠ ∅) ∧ (pyTruthy d.key = true) then
    (set_shortcut c (d.modifiers.sort (fun a b => a ≤ b)) ((d.key).getD ""), true)
  else (c, false)

/-- Decode failures of the raw bitmap decoder. -/
inductive DecodeError where
  | Truncated
  | UnsupportedCompression
  | UnsupportedBitDepth
deriving DecidableEq

/-- The canonical decoded image: positive dimensions, top-down RGBA8 bytes
and a row stride. -/
structure DecodedImage where
  width : Nat
  height : Nat
  stride : Nat
  pixels : List Nat
deriving DecidableEq

/-- Byte access with the convention that offsets past the end read 0 (all
reads below are guarded by explicit length checks first). -/
def byteAt (bs : List Nat) (i : Nat) : Nat := bs.getD i 0

/-- Little-endian 16-bit read. -/
def readLE16 (bs : List Nat) (i : Nat) : Nat :=
  byteAt bs i + 256 * byteAt bs (i + 1)

/-- Little-endian 32-bit read. -/
def readLE32 (bs : List Nat) (i : Nat) : Nat :=
  readLE16 bs i + 65536 * readLE16 bs (i + 2)

/-- Reinterpret an unsigned 32-bit value as a signed one. -/
def asI32 (v : Nat) : Int :=
  if v < 2147483648 then (v : Int) else (v : Int) - 4294967296

/-- The parsed fixed 40-byte header of a raw bitmap record. -/
structure BitmapHeader where
  header_size : Nat
  width : Int
  height : Int
  planes : Nat
  bit_count : Nat
  compression : Nat
  image_size : Nat
  x_res : Int
  y_res : Int
  colors_used : Nat
  colors_important : Nat
deriving DecidableEq

/-- Modelled from the spec: little-endian parse of the eleven fixed header
fields (spec section 4.3 step 2). -/
def parseHeader (bs : List Nat) : BitmapHeader :=
  { header_size := readLE32 bs 0,
    width := asI32 (readLE32 bs 4),
    height := asI32 (readLE32 bs 8),
    planes := readLE16 bs 12,
    bit_count := readLE16 bs 14,
    compression := readLE32 bs 16,
    image_size := readLE32 bs 20,
    x_res := asI32 (readLE32 bs 24),
    y_res := asI32 (readLE32 bs 28),
    colors_used := readLE32 bs 32,
    colors_important := readLE32 bs 36 }

/-- Row stride: each source scan row is padded to a 4-byte boundary. -/
def rowStride (bit_count w : Nat) : Nat :=
  ((bit_count * w + 31) / 32) * 4

/-- Look up one BGRX palette entry and return it as RGBA. -/
def paletteColor (bs : List Nat) (tableStart idx : Nat) : List Nat :=
  [byteAt bs (tableStart + idx * 4 + 2),
   byteAt bs (tableStart + idx * 4 + 1),
   byteAt bs (tableStart + idx * 4),
   255]

/-- Palette index of pixel x in a row starting at rowStart, for the
indexed bit depths (1, 4, 8). -/
def indexAt (bs : List Nat) (rowStart bit_count x : Nat) : Nat :=
  if bit_count = 1 then byteAt bs (rowStart + x / 8) / 2 ^ (7 - x % 8) % 2
  else if bit_count = 4 then
    (if x % 2 = 0 then byteAt bs (rowStart + x / 2) / 16
     else byteAt bs (rowStart + x / 2) % 16)
  else byteAt bs (rowStart + x)

/-- RGBA bytes of pixel x of a row: indexed depths go through the palette,
16-bit is 5-5-5 direct, 24-bit is BGR direct, 32-bit is BGRA direct. -/
def pixelRGBA (bs : List Nat) (tableStart rowStart bit_count x : Nat) :
    List Nat :=
  if bit_count ≤ 8 then
    paletteColor bs tableStart (indexAt bs rowStart bit_count x)
  else if bit_count = 16 then
    [(readLE16 bs (rowStart + x * 2) / 1024 % 32) * 8,
     (readLE16 bs (rowStart + x * 2) / 32 % 32) * 8,
     (readLE16 bs (rowStart + x * 2) % 32) * 8,
     255]
  else if bit_count = 24 then
    [byteAt bs (rowStart + x * 3 + 2),
     byteAt bs (rowStart + x * 3 + 1),
     byteAt bs (rowStart + x * 3),
     255]
  else
    [byteAt bs (rowStart + x * 4 + 2),
     byteAt bs (rowStart + x * 4 + 1),
     byteAt bs (rowStart + x * 4),
     byteAt bs (rowStart + x * 4 + 3)]

/-- Unpack the pixel rows into a top-down RGBA8 buffer, reversing the row
order for bottom-up records. -/
def unpack (bs : List Nat) (tableStart offset bit_count w h : Nat)
    (topDown : Bool) : DecodedImage :=
  { width := w, height := h, stride := w * 4,
    pixels :=
      (List.range h).foldr
        (fun y acc =>
          ((List.range w).foldr
            (fun x acc2 =>
              pixelRGBA bs tableStart
                (offset + (if topDown then y else h - 1 - y) * rowStride bit_count w)
                bit_count x ++ acc2)
            []) ++ acc)
        [] }

/-- Modelled from the spec: BitmapDecoder.decode (spec section 4.3); the
decoder itself is not in src/ — the source delegates raw clipboard bitmap
decoding to the external PIL ImageGrab collaborator.  Steps: require 40
header bytes else Truncated; parse; compute the color-table size (for
bit_count at most 8, colors_used if nonzero else 2^bit_count entries of 4
bytes, else no table); require the buffer to reach the pixel offset else
Truncated; reject nonzero compression; reject unsupported bit depths;
unpack into a top-down RGBA8 buffer. -/
def decode (bs : List Nat) : Except DecodeError DecodedImage :=
  if bs.length < 40 then Except.error DecodeError.Truncated
  else
    let hd := parseHeader bs
    let tableSize :=
      if hd.bit_count ≤ 8 then
        (if hd.colors_used ≠ 0 then hd.colors_used else 2 ^ hd.bit_count) * 4
      else 0
    let offset := hd.header_size + tableSize
    if bs.length < offset then Except.error DecodeError.Truncated
    else if hd.compression ≠ 0 then Except.error DecodeError.UnsupportedCompression
    else if hd.bit_count = 1 ∨ hd.bit_count = 4 ∨ hd.bit_count = 8 ∨
            hd.bit_count = 16 ∨ hd.bit_count = 24 ∨ hd.bit_count = 32 then
      Except.ok (unpack bs hd.header_size offset hd.bit_count
        hd.width.toNat hd.height.natAbs (hd.height < 0))
    else Except.error DecodeError.UnsupportedBitDepth

lemma processEvents_nil (m : Monitor) : processEvents m [] = m := rfl

lemma processEvents_cons (m : Monitor) (e : KeyEvent) (t : List KeyEvent) :
    processEvents m (e :: t) = processEvents (step m e).1 t := rfl

lemma modifierType_flags (k : Key) (h : modifierType k = none) :
    is_ctrl_key k = false ∧ is_alt_key k = false ∧ is_shift_key k = false := by
  cases k <;> simp_all [modifierType, is_ctrl_key, is_alt_key, is_shift_key]

lemma on_press_nonmod (m : Monitor) (k : Key) (t : Rat)
    (h : modifierType k = none) :
    on_press m k t =
      (if check_modifiers_match m && is_trigger_key m k then handle_paste m t
       else (m, false)) := by
  obtain ⟨h1, h2, h3⟩ := modifierType_flags k h
  simp [on_press, h1, h2, h3]

lemma step_preserves_config (m : Monitor) (e : KeyEvent) :
    (step m e).1.required_modifiers = m.required_modifiers ∧
    (step m e).1.trigger_key = m.trigger_key ∧
    (step m e).1.trigger_vk = m.trigger_vk ∧
    (step m e).1.debounce_interval = m.debounce_interval := by
  unfold step on_press on_release handle_paste
  split_ifs <;> exact ⟨rfl, rfl, rfl, rfl⟩

lemma processEvents_config (evs : List KeyEvent) (m : Monitor) :
    (processEvents m evs).required_modifiers = m.required_modifiers ∧
    (processEvents m evs).trigger_key = m.trigger_key ∧
    (processEvents m evs).trigger_vk = m.trigger_vk ∧
    (processEvents m evs).debounce_interval = m.debounce_interval := by
  induction evs generalizing m with
  | nil => exact ⟨rfl, rfl, rfl, rfl⟩
  | cons e t ih =>
      rw [processEvents_cons]
      obtain ⟨a, b, c, d⟩ := ih (step m e).1
      obtain ⟨a2, b2, c2, d2⟩ := step_preserves_config m e
      exact ⟨a.trans a2, b.trans b2, c.trans c2, d.trans d2⟩

lemma current_modifiers_ctrl_true (m : Monitor) :
    current_modifiers { m with ctrl_pressed := true } =
      insert "ctrl" (current_modifiers m) := by
  unfold current_modifiers
  cases hc : m.ctrl_pressed <;> cases ha : m.alt_pressed <;>
    cases hs : m.shift_pressed <;> simp [hc, ha, hs] <;> decide

lemma current_modifiers_alt_true (m : Monitor) :
    current_modifiers { m with alt_pressed := true } =
      insert "alt" (current_modifiers m) := by
  unfold current_modifiers
  cases hc : m.ctrl_pressed <;> cases ha : m.alt_pressed <;>
    cases hs : m.shift_pressed <;> simp [hc, ha, hs] <;> decide

lemma current_modifiers_shift_true (m : Monitor) :
    current_modifiers { m with shift_pressed := true } =
      insert "shift" (current_modifiers m) := by
  unfold current_modifiers
  cases hc : m.ctrl_pressed <;> cases ha : m.alt_pressed <;>
    cases hs : m.shift_pressed <;> simp [hc, ha, hs] <;> decide

lemma current_modifiers_ctrl_false (m : Monitor) :
    current_modifiers { m with ctrl_pressed := false } =
      (current_modifiers m).erase "ctrl" := by
  unfold current_modifiers
  cases hc : m.ctrl_pressed <;> cases ha : m.alt_pressed <;>
    cases hs : m.shift_pressed <;> simp [hc, ha, hs] <;> decide

lemma current_modifiers_alt_false (m : Monitor) :
    current_modifiers { m with alt_pressed := false } =
      (current_modifiers m).erase "alt" := by
  unfold current_modifiers
  cases hc : m.ctrl_pressed <;> cases ha : m.alt_pressed <;>
    cases hs : m.shift_pressed <;> simp [hc, ha, hs] <;> decide

lemma current_modifiers_shift_false (m : Monitor) :
    current_modifiers { m with shift_pressed := false } =
      (current_modifiers m).erase "shift" := by
  unfold current_modifiers
  cases hc : m.ctrl_pressed <;> cases ha : m.alt_pressed <;>
    cases hs : m.shift_pressed <;> simp [hc, ha, hs] <;> decide

lemma current_modifiers_handle_paste (m : Monitor) (t : Rat) :
    current_modifiers (handle_paste m t).1 = current_modifiers m := by
  unfold handle_paste
  split
  · rfl
  · rfl

lemma current_modifiers_step (m : Monitor) (e : KeyEvent) :
    current_modifiers (step m e).1 = heldUpd (current_modifiers m) e := by
  obtain ⟨k, p, t⟩ := e
  cases k <;> cases p <;>
    simp [step, on_press, on_release, heldUpd, modifierType,
      is_ctrl_key, is_alt_key, is_shift_key,
      current_modifiers_ctrl_true, current_modifiers_alt_true,
      current_modifiers_shift_true, current_modifiers_ctrl_false,
      current_modifiers_alt_false, current_modifiers_shift_false] <;>
    split <;> simp [current_modifiers_handle_paste]

lemma current_modifiers_processEvents (evs : List KeyEvent) (m : Monitor) :
    current_modifiers (processEvents m evs) =
      List.foldl heldUpd (current_modifiers m) evs := by
  induction evs generalizing m with
  | nil => rfl
  | cons e t ih =>
      rw [processEvents_cons, ih, List.foldl_cons, current_modifiers_step]

lemma current_modifiers_init (cfg : Shortcut) :
    current_modifiers (initMonitor cfg) = ∅ := by
  simp [initMonitor, reload_shortcut, current_modifiers]

lemma check_modifiers_match_iff (m : Monitor) :
    check_modifiers_match m = true ↔
      current_modifiers m = m.required_modifiers := by
  simp [check_modifiers_match]

lemma handle_paste_fire_iff (m : Monitor) (t : Rat) :
    (handle_paste m t).2 = true ↔
      m.debounce_interval ≤ t - m.last_paste_time := by
  unfold handle_paste
  split
  · rename_i h
    simp
    exact h
  · rename_i h
    simp
    exact not_lt.mp h

lemma handle_paste_fired_state (m : Monitor) (t : Rat)
    (h : m.debounce_interval ≤ t - m.last_paste_time) :
    handle_paste m t = ({ m with last_paste_time := t }, true) := by
  unfold handle_paste
  rw [if_neg (not_lt.mpr h)]

lemma handle_paste_debounced_state (m : Monitor) (t : Rat)
    (h : t - m.last_paste_time < m.debounce_interval) :
    handle_paste m t = (m, false) := by
  unfold handle_paste
  rw [if_pos h]

lemma is_trigger_key_claim (cfg : Shortcut) (m : Monitor)
    (h1 : m.trigger_key = lower cfg.key)
    (h2 : m.trigger_vk = VK_CODES (lower cfg.key))
    (c : Option String) (v : Option Nat) (n : Option String) :
    is_trigger_key m (Key.other c v n) =
      claimKeyMatches cfg (Key.other c v n) := by
  rcases c with _ | cs <;> rcases n with _ | ns <;> rcases v with _ | vv <;>
    rcases hvk : VK_CODES (lower cfg.key) with _ | tv <;>
      simp [is_trigger_key, claimKeyMatches, char_matches, vk_matches,
        name_matches, h1, h2, hvk]

/-- C3: the bitmap decoder returns Truncated on every input shorter than
the 40 bytes of the fixed header, before any further parsing. -/
theorem C3_decode_short_input_truncated (bs : List Nat)
    (h : bs.length < 40) :
    decode bs = Except.error DecodeError.Truncated := by
  unfold decode
  rw [if_pos h]

/-- C3 witness: a 39-byte input is shorter than 40 bytes and decodes to
Truncated. -/
theorem C3_decode_short_input_truncated_witness :
    (List.replicate 39 0).length < 40 ∧
    decode (List.replicate 39 0) = Except.error DecodeError.Truncated :=
  ⟨by decide, C3_decode_short_input_truncated (List.replicate 39 0) (by decide)⟩

/-- C4: a clipboard access failure (any exception raised by the grab,
including the clipboard being locked by another process) makes the
extraction return no image; the try/except wrapper means no error is
propagated, which the embedding reflects by totality into Option. -/
theorem C4_access_failure_returns_none (msg : String) :
    get_clipboard_image (GrabResult.accessError msg) = none := rfl

/-- C5 counterexample: a file-path-list clipboard and an empty clipboard
produce the identical outcome None, so the caller cannot tell them
apart from the extraction result, contrary to the claim. -/
theorem C5_counterexample :
    get_clipboard_image (GrabResult.fileList ["C:/a.png"]) = none ∧
    get_clipboard_image GrabResult.noData = none ∧
    get_clipboard_image (GrabResult.fileList ["C:/a.png"]) =
      get_clipboard_image GrabResult.noData :=
  ⟨rfl, rfl, rfl⟩

/-- C5 amended: a file-path-list clipboard yields no image, the same None
outcome an empty clipboard yields (only debug logging differs). -/
theorem C5_filelist_yields_none (paths : List String) :
    get_clipboard_image (GrabResult.fileList paths) = none ∧
    get_clipboard_image GrabResult.noData = none :=
  ⟨rfl, rfl⟩

/-- C10: extraction returns an RGBA image unchanged, an RGB image
unchanged, and converts any other mode to RGB, so every returned image has
mode RGBA or RGB. -/
theorem C10_returned_mode_rgba_or_rgb (img : PILImage) :
    get_clipboard_image (GrabResult.image img) =
      some (if img.mode = "RGBA" then img
            else if img.mode = "RGB" then img
            else convert img ("RGB")) ∧
    ((if img.mode = "RGBA" then img
      else if img.mode = "RGB" then img
      else convert img ("RGB")).mode = "RGBA" ∨
     (if img.mode = "RGBA" then img
      else if img.mode = "RGB" then img
      else convert img ("RGB")).mode = "RGB") := by
  by_cases h1 : img.mode = "RGBA"
  · simp [get_clipboard_image, h1]
  · by_cases h2 : img.mode = "RGB"
    · simp [get_clipboard_image, h1, h2]
    · simp [get_clipboard_image, convert, h1, h2]

/-- C8 counterexample: a monitor holding ctrl sees its tracked modifier
set unchanged (still containing ctrl, hence not empty) after stop and
after start, contrary to the claimed reset to the empty set. -/
theorem C8_counterexample :
    current_modifiers
        (stop { initMonitor ⟨["ctrl"], "v"⟩ with ctrl_pressed := true }) ≠ ∅ ∧
    current_modifiers
        (start { initMonitor ⟨["ctrl"], "v"⟩ with ctrl_pressed := true }) ≠ ∅ := by
  constructor <;> decide

/-- C8 amended: start and stop leave the tracked modifier flags exactly as
they were; the tracked set is empty at construction only. -/
theorem C8_start_stop_preserve_modifiers (m : Monitor) (cfg : Shortcut) :
    (stop m).ctrl_pressed = m.ctrl_pressed ∧
    (stop m).alt_pressed = m.alt_pressed ∧
    (stop m).shift_pressed = m.shift_pressed ∧
    (start m).ctrl_pressed = m.ctrl_pressed ∧
    (start m).alt_pressed = m.alt_pressed ∧
    (start m).shift_pressed = m.shift_pressed ∧
    current_modifiers (initMonitor cfg) = ∅ := by
  refine ⟨rfl, rfl, rfl, ?_, ?_, ?_, current_modifiers_init cfg⟩ <;>
    (unfold start; split <;> rfl)

/-- C9: a malformed recorded chord (empty modifier set, or no truthy
recorded key) is rejected by save_shortcut: the stored configuration is
returned unchanged and no commit happens. -/
theorem C9_malformed_chord_rejected (d : Dialog) (c : Config)
    (h : d.modifiers = ∅ ∨ pyTruthy d.key = false) :
    save_shortcut d c = (c, false) := by
  have hcond : ¬((d.modifiers ≠ ∅) ∧ (pyTruthy d.key = true)) := by
    rcases h with h | h
    · exact fun hc => hc.1 h
    · exact fun hc => by rw [h] at hc; exact Bool.false_ne_true hc.2
  unfold save_shortcut
  rw [if_neg hcond]

/-- C9 witness: the fresh dialog has an empty modifier set and saving it
leaves a concrete configuration untouched. -/
theorem C9_malformed_chord_rejected_witness :
    (initDialog.modifiers = ∅ ∨ pyTruthy initDialog.key = false) ∧
    save_shortcut initDialog
        ⟨"folder", false, ⟨["ctrl"], "v"⟩⟩ =
      (⟨"folder", false, ⟨["ctrl"], "v"⟩⟩, false) :=
  ⟨Or.inl rfl,
   C9_malformed_chord_rejected initDialog ⟨"folder", false, ⟨["ctrl"], "v"⟩⟩
     (Or.inl rfl)⟩

/-- C2: for a chord-matching key press that fires at time t1, a second
matching press at t2 fires again exactly when t2 - t1 reaches the debounce
interval; the timestamp is set to the firing time on every fire and left
unchanged by a debounced press; the default interval is 0.5 s. -/
theorem C2_debounce_policy (m : Monitor) (k : Key) (t1 t2 : Rat)
    (cfg : Shortcut)
    (hmod : modifierType k = none)
    (hmatch : check_modifiers_match m = true)
    (htrig : is_trigger_key m k = true)
    (h1 : m.debounce_interval ≤ t1 - m.last_paste_time) :
    (on_press m k t1).2 = true ∧
    ((on_press m k t1).1).last_paste_time = t1 ∧
    ((on_press (on_press m k t1).1 k t2).2 = true ↔
      m.debounce_interval ≤ t2 - t1) ∧
    (t2 - t1 < m.debounce_interval →
      ((on_press (on_press m k t1).1 k t2).1).last_paste_time = t1) ∧
    (m.debounce_interval ≤ t2 - t1 →
      ((on_press (on_press m k t1).1 k t2).1).last_paste_time = t2) ∧
    (initMonitor cfg).debounce_interval = 1/2 := by
  have e1 : on_press m k t1 = ({ m with last_paste_time := t1 }, true) := by
    rw [on_press_nonmod m k t1 hmod]
    simp [hmatch, htrig]
    exact handle_paste_fired_state m t1 h1
  have e1a : (on_press m k t1).1 = { m with last_paste_time := t1 } := by
    rw [e1]
  have e1b : (on_press m k t1).2 = true := by
    rw [e1]
  have hmatch1 : check_modifiers_match { m with last_paste_time := t1 } = true :=
    hmatch
  have htrig1 : is_trigger_key { m with last_paste_time := t1 } k = true :=
    htrig
  have e2 : on_press { m with last_paste_time := t1 } k t2 =
      handle_paste { m with last_paste_time := t1 } t2 := by
    rw [on_press_nonmod _ k t2 hmod]
    simp [hmatch1, htrig1]
  refine ⟨e1b, by rw [e1a], ?_, ?_, ?_, rfl⟩
  · rw [e1a, e2]
    exact handle_paste_fire_iff _ t2
  · intro h
    rw [e1a, e2,
      handle_paste_debounced_state { m with last_paste_time := t1 } t2 h]
  · intro h
    rw [e1a, e2,
      handle_paste_fired_state { m with last_paste_time := t1 } t2 h]

/-- C2 witness: a monitor holding ctrl with chord ctrl+v; presses of v at
times 1 and 2 against debounce interval 0.5 starting from timestamp 0. -/
theorem C2_debounce_policy_witness :
    modifierType (Key.other (some "v") none none) = none ∧
    check_modifiers_match
      { initMonitor ⟨["ctrl"], "v"⟩ with ctrl_pressed := true } = true ∧
    is_trigger_key { initMonitor ⟨["ctrl"], "v"⟩ with ctrl_pressed := true }
      (Key.other (some "v") none none) = true ∧
    ({ initMonitor ⟨["ctrl"], "v"⟩ with
        ctrl_pressed := true } : Monitor).debounce_interval ≤
      1 - ({ initMonitor ⟨["ctrl"], "v"⟩ with
        ctrl_pressed := true } : Monitor).last_paste_time ∧
    ((on_press { initMonitor ⟨["ctrl"], "v"⟩ with ctrl_pressed := true }
        (Key.other (some "v") none none) 1).2 = true ∧
     ((on_press { initMonitor ⟨["ctrl"], "v"⟩ with ctrl_pressed := true }
        (Key.other (some "v") none none) 1).1).last_paste_time = 1 ∧
     ((on_press (on_press { initMonitor ⟨["ctrl"], "v"⟩ with ctrl_pressed := true }
          (Key.other (some "v") none none) 1).1
        (Key.other (some "v") none none) 2).2 = true ↔
       ({ initMonitor ⟨["ctrl"], "v"⟩ with
          ctrl_pressed := true } : Monitor).debounce_interval ≤ 2 - 1) ∧
     (2 - 1 < ({ initMonitor ⟨["ctrl"], "v"⟩ with
          ctrl_pressed := true } : Monitor).debounce_interval →
       ((on_press (on_press { initMonitor ⟨["ctrl"], "v"⟩ with ctrl_pressed := true }
            (Key.other (some "v") none none) 1).1
          (Key.other (some "v") none none) 2).1).last_paste_time = 1) ∧
     (({ initMonitor ⟨["ctrl"], "v"⟩ with
          ctrl_pressed := true } : Monitor).debounce_interval ≤ 2 - 1 →
       ((on_press (on_press { initMonitor ⟨["ctrl"], "v"⟩ with ctrl_pressed := true }
            (Key.other (some "v") none none) 1).1
          (Key.other (some "v") none none) 2).1).last_paste_time = 2) ∧
     (initMonitor ⟨["ctrl"], "v"⟩).debounce_interval = 1/2) :=
  ⟨rfl, by decide, by decide,
   by norm_num [initMonitor, reload_shortcut],
   C2_debounce_policy { initMonitor ⟨["ctrl"], "v"⟩ with ctrl_pressed := true }
     (Key.other (some "v") none none) 1 2 ⟨["ctrl"], "v"⟩
     rfl (by decide) (by decide)
     (by norm_num [initMonitor, reload_shortcut])⟩

/-- C7: every call of the paste handler that passes debounce schedules
exactly one capture task; that task first sleeps the 0.1 s settle delay,
then calls the extraction, and its list of callback invocations is exactly
the one-element list of the extracted image when extraction succeeds and
empty otherwise. -/
theorem C7_capture_task (m : Monitor) (now : Rat) (grab : GrabResult)
    (h : (handle_paste m now).2 = true) :
    scheduled_tasks m now = 1 ∧
    (check_clipboard grab).take 2 =
      [CaptureAction.sleep (1/10), CaptureAction.extractCall] ∧
    (check_clipboard grab).filter isCallbackCall =
      ((get_clipboard_image grab).map CaptureAction.callbackCall).toList := by
  refine ⟨?_, ?_, ?_⟩
  · simp [scheduled_tasks, h]
  · cases hg : get_clipboard_image grab <;> simp [check_clipboard, hg]
  · cases hg : get_clipboard_image grab <;>
      simp [check_clipboard, isCallbackCall, hg, Option.toList]

/-- C7 witness: a fresh ctrl+v monitor fires at time 1, and the capture
task over an RGB clipboard image performs sleep, extraction, and one
callback carrying that image. -/
theorem C7_capture_task_witness :
    (handle_paste (initMonitor ⟨["ctrl"], "v"⟩) 1).2 = true ∧
    (scheduled_tasks (initMonitor ⟨["ctrl"], "v"⟩) 1 = 1 ∧
     (check_clipboard (GrabResult.image ⟨"RGB", 1, 1, [0, 0, 0]⟩)).take 2 =
       [CaptureAction.sleep (1/10), CaptureAction.extractCall] ∧
     (check_clipboard (GrabResult.image ⟨"RGB", 1, 1, [0, 0, 0]⟩)).filter
         isCallbackCall =
       ((get_clipboard_image
           (GrabResult.image ⟨"RGB", 1, 1, [0, 0, 0]⟩)).map
         CaptureAction.callbackCall).toList) :=
  ⟨by norm_num [handle_paste, initMonitor, reload_shortcut],
   C7_capture_task (initMonitor ⟨["ctrl"], "v"⟩) 1
     (GrabResult.image ⟨"RGB", 1, 1, [0, 0, 0]⟩)
     (by norm_num [handle_paste, initMonitor, reload_shortcut])⟩

/-- C1: over any event sequence from a freshly configured monitor, a
non-modifier key press fires exactly when the set of modifiers tracked
from the prior press/release events equals the chord's required set
exactly, the key matches the chord's trigger key by case-insensitive
character or virtual key code or key name, and the press clears the
debounce window since the last fired trigger. -/
theorem C1_trigger_iff (cfg : Shortcut) (evs : List KeyEvent) (k : Key)
    (t : Rat) (hmod : modifierType k = none) :
    (on_press (processEvents (initMonitor cfg) evs) k t).2 = true ↔
      (heldModifierSet evs = cfg.modifiers.toFinset ∧
       claimKeyMatches cfg k = true ∧
       (processEvents (initMonitor cfg) evs).debounce_interval ≤
         t - (processEvents (initMonitor cfg) evs).last_paste_time) := by
  cases k with
  | ctrl_l => simp [modifierType, is_ctrl_key, is_alt_key, is_shift_key] at hmod
  | ctrl_r => simp [modifierType, is_ctrl_key, is_alt_key, is_shift_key] at hmod
  | alt_l => simp [modifierType, is_ctrl_key, is_alt_key, is_shift_key] at hmod
  | alt_r => simp [modifierType, is_ctrl_key, is_alt_key, is_shift_key] at hmod
  | alt_gr => simp [modifierType, is_ctrl_key, is_alt_key, is_shift_key] at hmod
  | shift_l => simp [modifierType, is_ctrl_key, is_alt_key, is_shift_key] at hmod
  | shift_r => simp [modifierType, is_ctrl_key, is_alt_key, is_shift_key] at hmod
  | other c v n =>
      obtain ⟨hreq, htk, hvk, _⟩ := processEvents_config evs (initMonitor cfg)
      have hreq2 : (processEvents (initMonitor cfg) evs).required_modifiers =
          cfg.modifiers.toFinset := by
        rw [hreq]
        rfl
      have htk2 : (processEvents (initMonitor cfg) evs).trigger_key =
          lower cfg.key := by
        rw [htk]
        rfl
      have hvk2 : (processEvents (initMonitor cfg) evs).trigger_vk =
          VK_CODES (lower cfg.key) := by
        rw [hvk]
        rfl
      have hcm : current_modifiers (processEvents (initMonitor cfg) evs) =
          heldModifierSet evs := by
        rw [current_modifiers_processEvents, current_modifiers_init]
        rfl
      have htr : is_trigger_key (processEvents (initMonitor cfg) evs)
            (Key.other c v n) =
          claimKeyMatches cfg (Key.other c v n) :=
        is_trigger_key_claim cfg _ htk2 hvk2 c v n
      rw [on_press_nonmod _ _ t hmod]
      by_cases hcond :
          (check_modifiers_match (processEvents (initMonitor cfg) evs) &&
            is_trigger_key (processEvents (initMonitor cfg) evs)
              (Key.other c v n)) = true
      · rw [if_pos hcond]
        rw [Bool.and_eq_true] at hcond
        obtain ⟨hc, ht⟩ := hcond
        have hA : heldModifierSet evs = cfg.modifiers.toFinset := by
          rw [← hcm, ← hreq2]
          exact (check_modifiers_match_iff _).mp hc
        have hB : claimKeyMatches cfg (Key.other c v n) = true := by
          rw [← htr]
          exact ht
        rw [handle_paste_fire_iff]
        constructor
        · intro hd
          exact ⟨hA, hB, hd⟩
        · intro hd
          exact hd.2.2
      · rw [if_neg hcond]
        constructor
        · intro hff
          exact (Bool.false_ne_true hff).elim
        · rintro ⟨hA, hB, _⟩
          exfalso
          apply hcond
          rw [Bool.and_eq_true]
          refine ⟨(check_modifiers_match_iff _).mpr ?_, ?_⟩
          · rw [hcm, hreq2]
            exact hA
          · rw [htr]
            exact hB

/-- C1 witness: with chord ctrl+v, after pressing left ctrl, a press of
the character v at time 1 satisfies the characterization. -/
theorem C1_trigger_iff_witness :
    modifierType (Key.other (some "v") none none) = none ∧
    ((on_press (processEvents (initMonitor ⟨["ctrl"], "v"⟩)
          [⟨Key.ctrl_l, true, 0⟩]) (Key.other (some "v") none none) 1).2 =
        true ↔
      (heldModifierSet [⟨Key.ctrl_l, true, 0⟩] =
          (Shortcut.mk ["ctrl"] ("v")).modifiers.toFinset ∧
       claimKeyMatches ⟨["ctrl"], "v"⟩ (Key.other (some "v") none none) =
          true ∧
       (processEvents (initMonitor ⟨["ctrl"], "v"⟩)
           [⟨Key.ctrl_l, true, 0⟩]).debounce_interval ≤
         1 - (processEvents (initMonitor ⟨["ctrl"], "v"⟩)
           [⟨Key.ctrl_l, true, 0⟩]).last_paste_time)) :=
  ⟨rfl,
   C1_trigger_iff ⟨["ctrl"], "v"⟩ [⟨Key.ctrl_l, true, 0⟩]
     (Key.other (some "v") none none) 1 rfl⟩

/-- C6 counterexample: during recording, pressing the character key a with
no modifier held at all still records a as the trigger key, contrary to
the claim that the recorded key is the first non-modifier key pressed
while at least one modifier is held. -/
theorem C6_counterexample :
    (dialog_key_press (start_recording initDialog)
        (Key.other (some "a") none none)).key = some "a" ∧
    (start_recording initDialog).modifiers = ∅ ∧
    (dialog_key_press (start_recording initDialog)
        (Key.other (some "a") none none)).modifiers = ∅ := by
  refine ⟨by decide, rfl, rfl⟩

/-- C6 amended: during recording, pressed modifiers accumulate into the
working set; every non-modifier key press overwrites the recorded key with
its resolved identity regardless of which modifiers are held (so the
recorded key is the most recent such press, not the first one made while
a modifier is held); recording auto-stops exactly when any key is released
while the working set is non-empty and a key has been recorded. -/
theorem C6_recording_behavior (d : Dialog) (c : Option String)
    (v : Option Nat) (n : Option String) (k : Key)
    (hrec : d.recording = true) :
    (dialog_key_press d Key.ctrl_l).modifiers = insert "ctrl" d.modifiers ∧
    (dialog_key_press d Key.ctrl_r).modifiers = insert "ctrl" d.modifiers ∧
    (dialog_key_press d Key.alt_l).modifiers = insert "alt" d.modifiers ∧
    (dialog_key_press d Key.alt_r).modifiers = insert "alt" d.modifiers ∧
    (dialog_key_press d Key.alt_gr).modifiers = insert "alt" d.modifiers ∧
    (dialog_key_press d Key.shift_l).modifiers = insert "shift" d.modifiers ∧
    (dialog_key_press d Key.shift_r).modifiers = insert "shift" d.modifiers ∧
    (dialog_key_press d (Key.other c v n)).key =
      recorded_key_of c n v d.key ∧
    (dialog_key_press d (Key.other c v n)).modifiers = d.modifiers ∧
    ((dialog_key_release d k).recording = false ↔
      (d.modifiers ≠ ∅ ∧ pyTruthy d.key = true)) := by
  refine ⟨?_, ?_, ?_, ?_, ?_, ?_, ?_, ?_, ?_, ?_⟩
  · simp [dialog_key_press, hrec, is_ctrl_key, is_alt_key, is_shift_key]
  · simp [dialog_key_press, hrec, is_ctrl_key, is_alt_key, is_shift_key]
  · simp [dialog_key_press, hrec, is_ctrl_key, is_alt_key, is_shift_key]
  · simp [dialog_key_press, hrec, is_ctrl_key, is_alt_key, is_shift_key]
  · simp [dialog_key_press, hrec, is_ctrl_key, is_alt_key, is_shift_key]
  · simp [dialog_key_press, hrec, is_ctrl_key, is_alt_key, is_shift_key]
  · simp [dialog_key_press, hrec, is_ctrl_key, is_alt_key, is_shift_key]
  · simp [dialog_key_press, hrec, is_ctrl_key, is_alt_key, is_shift_key]
  · simp [dialog_key_press, hrec, is_ctrl_key, is_alt_key, is_shift_key]
  · unfold dialog_key_release
    by_cases hc : (d.modifiers ≠ ∅) ∧ (pyTruthy d.key = true)
    · simp [hrec, hc, stop_recording]
    · simp [hrec, hc]

/-- C6 amended witness: a recording dialog holding nothing yet, probed
with the character key b and left ctrl. -/
theorem C6_recording_behavior_witness :
    (start_recording initDialog).recording = true ∧
    ((dialog_key_press (start_recording initDialog) Key.ctrl_l).modifiers =
        insert "ctrl" (start_recording initDialog).modifiers ∧
     (dialog_key_press (start_recording initDialog) Key.ctrl_r).modifiers =
        insert "ctrl" (start_recording initDialog).modifiers ∧
     (dialog_key_press (start_recording initDialog) Key.alt_l).modifiers =
        insert "alt" (start_recording initDialog).modifiers ∧
     (dialog_key_press (start_recording initDialog) Key.alt_r).modifiers =
        insert "alt" (start_recording initDialog).modifiers ∧
     (dialog_key_press (start_recording initDialog) Key.alt_gr).modifiers =
        insert "alt" (start_recording initDialog).modifiers ∧
     (dialog_key_press (start_recording initDialog) Key.shift_l).modifiers =
        insert "shift" (start_recording initDialog).modifiers ∧
     (dialog_key_press (start_recording initDialog) Key.shift_r).modifiers =
        insert "shift" (start_recording initDialog).modifiers ∧
     (dialog_key_press (start_recording initDialog)
         (Key.other (some "b") none none)).key =
       recorded_key_of (some "b") none none
         (start_recording initDialog).key ∧
     (dialog_key_press (start_recording initDialog)
         (Key.other (some "b") none none)).modifiers =
       (start_recording initDialog).modifiers ∧
     ((dialog_key_release (start_recording initDialog) Key.ctrl_l).recording =
         false ↔
       ((start_recording initDialog).modifiers ≠ ∅ ∧
        pyTruthy (start_recording initDialog).key = true))) :=
  ⟨rfl,
   C6_recording_behavior (start_recording initDialog) (some "b") none none
     Key.ctrl_l rfl⟩

end ImageChrome
